import Mathlib

/-!
# Shallow embedding of the Renderer GPU resource / frame-rendering subsystem

Embeds `src/mesh.rs`, `src/buffer_set.rs`, `src/render_context.rs` (and the
surface-size handling mirrored in `src/main.rs`).  GPU objects (`wgpu::Buffer`)
are modelled by the handle identity the device hands out (a `Nat` drawn from a
fresh counter), and every call the code makes into the GPU API is recorded as a
`GpuOp` in an emitted trace, in source order.  `uuid::Uuid` is modelled as a
`Nat` carried by the mesh (assigned once at construction, opaque).  `u32`
surface dimensions are modelled as `Nat` (they are only stored and compared);
the `f32` aspect-ratio division is modelled as exact division in `ℚ`.
Fallible code is modelled with `Option`: `RenderContext::render` returns `none`
exactly when its `.unwrap()` on the registry lookup would panic.
-/

set_option autoImplicit false

namespace Renderer

/-- Modelled from the spec: `vertex.rs` is not under `src/` (only its users
are).  The spec fixes a vertex as a record holding a 3-component float
position; the position components are modelled in `ℚ`. -/
structure Vertex where
  position : ℚ × ℚ × ℚ
  deriving DecidableEq

/-- Modelled from the spec: the `Camera` consumed by `RenderContext::render`
takes the viewport aspect ratio as an argument of `view_projection_matrix`
(the `camera.rs` under `src/` declares a zero-argument variant used by the
standalone `main.rs` pipeline, not the one `render_context.rs` compiles
against).  The spec treats the transform math as an external collaborator, so
only the camera's pose/projection attributes are carried. -/
structure Camera where
  fovY : ℚ
  near : ℚ
  far : ℚ
  deriving DecidableEq

/-- `Mesh` from `src/mesh.rs`: a stable identity (`uuid::Uuid`, modelled as a
`Nat` assigned at construction), vertex list and `u16` index list (index
values modelled as `Nat`). -/
structure Mesh where
  id : Nat
  vertices : List Vertex
  indices : List Nat
  deriving DecidableEq

/-- `Mesh::index_count` from `src/mesh.rs`. -/
def Mesh.index_count (m : Mesh) : Nat :=
  m.indices.length

/-- `BufferSet` from `src/buffer_set.rs`: each `wgpu::Buffer` is modelled by
its GPU handle identity. -/
structure BufferSet where
  indexBuffer : Nat
  vertexBuffer : Nat
  deriving DecidableEq

/-- One call into the GPU API, recorded in the order the code issues it. -/
inductive GpuOp where
  /-- `device.create_buffer_init` allocating the buffer with this handle. -/
  | createBufferInit (handle : Nat)
  /-- `surface.configure(&device, &config)` with the stored dimensions. -/
  | configureSurface (width height : Nat)
  /-- `surface.get_current_texture()` attempt and its outcome. -/
  | acquireFrame (ok : Bool)
  /-- `eprintln!("Failed to acquire next surface texture")`. -/
  | logAcquireFailure
  /-- `frame.texture.create_view(..)`. -/
  | createView
  /-- `device.create_command_encoder(..)`. -/
  | createCommandEncoder
  /-- `queue.write_buffer` of `camera.view_projection_matrix(aspect_ratio)`
  into the uniform buffer; records the aspect ratio passed to the camera. -/
  | writeUniform (aspect : ℚ)
  /-- `encoder.begin_render_pass(..)` clearing the color target. -/
  | beginRenderPass
  /-- `render_pass.set_pipeline(..)`. -/
  | setPipeline
  /-- `render_pass.set_vertex_buffer(0, ..)` with this buffer handle. -/
  | setVertexBuffer (handle : Nat)
  /-- `render_pass.set_index_buffer(.., Uint16)` with this buffer handle. -/
  | setIndexBuffer (handle : Nat)
  /-- `render_pass.set_bind_group(0, uniform_bind_group, &[])`. -/
  | setBindGroup
  /-- `render_pass.draw_indexed(0..indexCount, 0, 0..instanceCount)`. -/
  | drawIndexed (indexCount instanceCount : Nat)
  /-- `queue.submit(..)`. -/
  | submit
  /-- `frame.present()`. -/
  | present
  deriving DecidableEq

/-- `HashMap::contains_key` on the registry (`HashMap<Uuid, BufferSet>`,
modelled as an association list with newest entry first). -/
def containsKey (m : List (Nat × BufferSet)) (k : Nat) : Bool :=
  m.any (fun e => e.1 == k)

/-- `HashMap::get` on the registry. -/
def lookupKey : List (Nat × BufferSet) → Nat → Option BufferSet
  | [], _ => none
  | e :: rest, k => if e.1 == k then some e.2 else lookupKey rest k

/-- `HashMap::insert` on the registry; `render_context.rs` only inserts keys
that are absent, for which consing is exact. -/
def insertKey (m : List (Nat × BufferSet)) (k : Nat) (v : BufferSet) :
    List (Nat × BufferSet) :=
  (k, v) :: m

/-- `Mesh::buffer_set` from `src/mesh.rs`: creates the vertex buffer, then the
index buffer, and packs them as `BufferSet::new(index_buffer, vertex_buffer)`.
Takes the device's fresh-handle counter; returns the pair, the advanced
counter, and the GPU calls made. -/
def Mesh.buffer_set (_m : Mesh) (nextId : Nat) :
    BufferSet × Nat × List GpuOp :=
  (⟨nextId + 1, nextId⟩, nextId + 2,
    [GpuOp.createBufferInit nextId, GpuOp.createBufferInit (nextId + 1)])

/-- `RenderContext` state from `src/render_context.rs`: the stored surface
configuration dimensions, the registry `buffer_sets`, and the device's
fresh-buffer-handle counter (standing for the GPU-side allocation state). -/
structure RenderContext where
  surfaceWidth : Nat
  surfaceHeight : Nat
  bufferSets : List (Nat × BufferSet)
  nextBufferId : Nat
  deriving DecidableEq

/-- `RenderContext::register_mesh`: no-op when the identity is already
registered, otherwise uploads a fresh buffer pair and inserts it keyed by the
mesh's identity.  Returns the new state and the GPU calls made. -/
def RenderContext.register_mesh (ctx : RenderContext) (mesh : Mesh) :
    RenderContext × List GpuOp :=
  if containsKey ctx.bufferSets mesh.id then
    (ctx, [])
  else
    let r := mesh.buffer_set ctx.nextBufferId
    ({ ctx with
        bufferSets := insertKey ctx.bufferSets mesh.id r.1
        nextBufferId := r.2.1 },
      r.2.2)

/-- The first two lines of `RenderContext::render`:
`if !self.buffer_sets.contains_key(&mesh.id()) { self.register_mesh(mesh); }`. -/
def RenderContext.ensureRegistered (ctx : RenderContext) (mesh : Mesh) :
    RenderContext × List GpuOp :=
  if !(containsKey ctx.bufferSets mesh.id) then
    ctx.register_mesh mesh
  else
    (ctx, [])

/-- `RenderContext::render` from `src/render_context.rs`.  `acquireOk` is the
environment's answer to `surface.get_current_texture()` (`true` = `Ok`).
Returns `none` exactly where the source would panic (the `.unwrap()` on the
registry lookup); otherwise `some` of the new state and the GPU-call trace in
source order. -/
def RenderContext.render (ctx : RenderContext) (_camera : Camera) (mesh : Mesh)
    (acquireOk : Bool) : Option (RenderContext × List GpuOp) :=
  let s := ctx.ensureRegistered mesh
  if s.1.surfaceWidth == 0 || s.1.surfaceHeight == 0 then
    some (s.1, s.2)
  else if !acquireOk then
    some (s.1, s.2 ++ [GpuOp.acquireFrame false, GpuOp.logAcquireFailure])
  else
    match lookupKey s.1.bufferSets mesh.id with
    | none => none
    | some bs =>
        some (s.1, s.2 ++
          [GpuOp.acquireFrame true, GpuOp.createView, GpuOp.createCommandEncoder,
            GpuOp.writeUniform ((s.1.surfaceWidth : ℚ) / (s.1.surfaceHeight : ℚ)),
            GpuOp.beginRenderPass, GpuOp.setPipeline,
            GpuOp.setVertexBuffer bs.vertexBuffer,
            GpuOp.setIndexBuffer bs.indexBuffer,
            GpuOp.setBindGroup,
            GpuOp.drawIndexed mesh.index_count 1,
            GpuOp.submit, GpuOp.present])

/-- `RenderContext::resize`: stores the new dimensions unconditionally, then
reconfigures the surface unless either dimension is zero. -/
def RenderContext.resize (ctx : RenderContext) (width height : Nat) :
    RenderContext × List GpuOp :=
  let ctx' := { ctx with surfaceWidth := width, surfaceHeight := height }
  if width == 0 || height == 0 then
    (ctx', [])
  else
    (ctx', [GpuOp.configureSurface width height])

/-- A sequence of `resize` calls applied to a context (traces discarded). -/
def applyResizes (ctx : RenderContext) (sizes : List (Nat × Nat)) :
    RenderContext :=
  sizes.foldl (fun c s => (c.resize s.1 s.2).1) ctx

/-- Whether a GPU call is an indexed draw. -/
def isDrawOp : GpuOp → Bool
  | GpuOp.drawIndexed _ _ => true
  | _ => false

/-- The indexed draw calls of a trace, in order. -/
def drawCalls (tr : List GpuOp) : List GpuOp :=
  tr.filter isDrawOp

/-! ## Concrete instances used by witnesses and counterexamples -/

/-- A vertex at the origin. -/
def vEx : Vertex := ⟨(0, 0, 0)⟩

/-- A camera with arbitrary concrete projection parameters. -/
def camEx : Camera := ⟨1, 1, 100⟩

/-- A 3-vertex / 3-index triangle mesh with identity 7. -/
def meshEx : Mesh := ⟨7, [vEx, vEx, vEx], [0, 1, 2]⟩

/-- A context whose registry already holds an entry for identity 7. -/
def ctxReg : RenderContext := ⟨640, 480, [(7, ⟨1, 0⟩)], 2⟩

/-- A freshly initialized context: empty registry, no buffers allocated. -/
def ctxFresh : RenderContext := ⟨640, 480, [], 0⟩

/-- A context with both stored surface dimensions zero. -/
def ctxZero : RenderContext := ⟨0, 0, [], 0⟩

/-- A context whose initial dimensions differ from every later resize. -/
def ctxW : RenderContext := ⟨3, 7, [], 0⟩

/-- A mesh whose single index 5 is out of range for its empty vertex list. -/
def badMesh : Mesh := ⟨99, [], [5]⟩

/-- First unit triangle (identity 1), 3 vertices / 3 indices. -/
def triA : Mesh := ⟨1, [vEx, vEx, vEx], [0, 1, 2]⟩

/-- Second unit triangle (identity 2), 3 vertices / 3 indices. -/
def triB : Mesh := ⟨2, [vEx, vEx, vEx], [0, 1, 2]⟩

/-- A context on which both triangles have been registered. -/
def ctxTwo : RenderContext := ((ctxFresh.register_mesh triA).1.register_mesh triB).1

/-- The state/trace a full successful `render` of `meshEx` produces on
`ctxFresh`. -/
def renderOkResult : RenderContext × List GpuOp :=
  (ctxFresh.render camEx meshEx true).getD (ctxFresh, [])

/-- The state/trace `render` produces on a zero-dimension context (the frame
is skipped). -/
def renderZeroResult : RenderContext × List GpuOp :=
  (ctxZero.render camEx meshEx false).getD (ctxFresh, [])

/-- The state/trace of one `render` call on `ctxTwo` (both triangles already
registered), drawing `triA`. -/
def renderTwoResult : RenderContext × List GpuOp :=
  (ctxTwo.render camEx triA true).getD (ctxFresh, [])

/-! ## Basic registry lemmas -/

theorem containsKey_insertKey_self (m : List (Nat × BufferSet)) (k : Nat)
    (v : BufferSet) : containsKey (insertKey m k v) k = true := by
  simp [containsKey, insertKey]

theorem lookupKey_isSome_of_containsKey (m : List (Nat × BufferSet)) (k : Nat)
    (h : containsKey m k = true) : (lookupKey m k).isSome = true := by
  induction m with
  | nil => simp [containsKey] at h
  | cons e rest ih =>
      by_cases he : e.1 = k
      · simp [lookupKey, he]
      · simp [containsKey, he] at h
        simpa [lookupKey, he] using ih (by simpa [containsKey] using h)

theorem register_mesh_contains (ctx : RenderContext) (mesh : Mesh) :
    containsKey (ctx.register_mesh mesh).1.bufferSets mesh.id = true := by
  unfold RenderContext.register_mesh
  by_cases hc : containsKey ctx.bufferSets mesh.id
  · simp [hc]
  · simpa [hc] using containsKey_insertKey_self ctx.bufferSets mesh.id _

theorem ensureRegistered_contains (ctx : RenderContext) (mesh : Mesh) :
    containsKey (ctx.ensureRegistered mesh).1.bufferSets mesh.id = true := by
  unfold RenderContext.ensureRegistered
  by_cases hc : containsKey ctx.bufferSets mesh.id
  · simp [hc]
  · simpa [hc] using register_mesh_contains ctx mesh

theorem register_mesh_dims (ctx : RenderContext) (mesh : Mesh) :
    (ctx.register_mesh mesh).1.surfaceWidth = ctx.surfaceWidth ∧
      (ctx.register_mesh mesh).1.surfaceHeight = ctx.surfaceHeight := by
  unfold RenderContext.register_mesh
  by_cases hc : containsKey ctx.bufferSets mesh.id <;> simp [hc]

theorem ensureRegistered_dims (ctx : RenderContext) (mesh : Mesh) :
    (ctx.ensureRegistered mesh).1.surfaceWidth = ctx.surfaceWidth ∧
      (ctx.ensureRegistered mesh).1.surfaceHeight = ctx.surfaceHeight := by
  unfold RenderContext.ensureRegistered
  by_cases hc : containsKey ctx.bufferSets mesh.id
  · simp [hc]
  · simpa [hc] using register_mesh_dims ctx mesh

theorem register_mesh_ops (ctx : RenderContext) (mesh : Mesh) :
    ∀ op ∈ (ctx.register_mesh mesh).2, ∃ n, op = GpuOp.createBufferInit n := by
  unfold RenderContext.register_mesh
  by_cases hc : containsKey ctx.bufferSets mesh.id <;>
    simp [hc, Mesh.buffer_set]

theorem ensureRegistered_ops (ctx : RenderContext) (mesh : Mesh) :
    ∀ op ∈ (ctx.ensureRegistered mesh).2, ∃ n, op = GpuOp.createBufferInit n := by
  unfold RenderContext.ensureRegistered
  by_cases hc : containsKey ctx.bufferSets mesh.id
  · simp [hc]
  · simpa [hc] using register_mesh_ops ctx mesh

theorem filter_isDrawOp_eq_nil (l : List GpuOp)
    (h : ∀ op ∈ l, ∃ n, op = GpuOp.createBufferInit n) :
    l.filter isDrawOp = [] := by
  refine List.filter_eq_nil_iff.mpr ?_
  intro a ha
  obtain ⟨n, rfl⟩ := h a ha
  simp [isDrawOp]

theorem render_writeUniform_aspect (ctx : RenderContext) (camera : Camera)
    (mesh : Mesh) (acquireOk : Bool) (p : RenderContext × List GpuOp) (a : ℚ)
    (hp : ctx.render camera mesh acquireOk = some p)
    (ha : GpuOp.writeUniform a ∈ p.2) :
    a = (ctx.surfaceWidth : ℚ) / (ctx.surfaceHeight : ℚ) := by
  have hops := ensureRegistered_ops ctx mesh
  have hd := ensureRegistered_dims ctx mesh
  by_cases hw : ((ctx.ensureRegistered mesh).1.surfaceWidth == 0
      || (ctx.ensureRegistered mesh).1.surfaceHeight == 0)
  · simp [RenderContext.render, hw] at hp
    rw [← hp] at ha
    obtain ⟨n, hn⟩ := hops _ ha
    simp at hn
  · by_cases hacq : acquireOk
    · obtain ⟨bs, hbs⟩ := Option.isSome_iff_exists.mp
        (lookupKey_isSome_of_containsKey _ _ (ensureRegistered_contains ctx mesh))
      simp [RenderContext.render, hw, hacq, hbs] at hp
      rw [← hp] at ha
      rcases List.mem_append.mp ha with h1 | h2
      · obtain ⟨n, hn⟩ := hops _ h1
        simp at hn
      · simp at h2
        rw [h2, hd.1, hd.2]
    · simp [RenderContext.render, hw, hacq] at hp
      rw [← hp] at ha
      rcases List.mem_append.mp ha with h1 | h2
      · obtain ⟨n, hn⟩ := hops _ h1
        simp at hn
      · simp at h2

theorem register_mesh_noop_of_contains (ctx : RenderContext) (mesh : Mesh)
    (h : containsKey ctx.bufferSets mesh.id = true) :
    ctx.register_mesh mesh = (ctx, []) := by
  unfold RenderContext.register_mesh
  simp [h]

/-! ## Claims -/

/-- C1: registering a mesh whose identity is already in the registry performs
no GPU work and leaves the state unchanged, and therefore a second
`register_mesh` after a first yields the very same registry entry (the
identical buffer-pair handles) as the first call inserted. -/
theorem register_mesh_idempotent (ctx : RenderContext) (mesh : Mesh) :
    (containsKey ctx.bufferSets mesh.id = true →
      ctx.register_mesh mesh = (ctx, [])) ∧
    (ctx.register_mesh mesh).1.register_mesh mesh =
      ((ctx.register_mesh mesh).1, []) ∧
    lookupKey ((ctx.register_mesh mesh).1.register_mesh mesh).1.bufferSets
        mesh.id =
      lookupKey (ctx.register_mesh mesh).1.bufferSets mesh.id := by
  refine ⟨fun h => register_mesh_noop_of_contains ctx mesh h, ?_, ?_⟩
  · exact register_mesh_noop_of_contains _ mesh (register_mesh_contains ctx mesh)
  · rw [register_mesh_noop_of_contains _ mesh (register_mesh_contains ctx mesh)]

/-- Witness for C1 at a context already holding an entry for the mesh. -/
theorem register_mesh_idempotent_witness :
    ctxReg.register_mesh meshEx = (ctxReg, []) :=
  (register_mesh_idempotent ctxReg meshEx).1 (by decide)

/-- C5: `resize` stores the new dimensions unconditionally (touching nothing
else); it issues no GPU call when either dimension is zero, and otherwise it
reconfigures the surface with exactly the new dimensions. -/
theorem resize_updates_then_configures (ctx : RenderContext)
    (width height : Nat) :
    (ctx.resize width height).1.surfaceWidth = width ∧
    (ctx.resize width height).1.surfaceHeight = height ∧
    (ctx.resize width height).1.bufferSets = ctx.bufferSets ∧
    (ctx.resize width height).1.nextBufferId = ctx.nextBufferId ∧
    (ctx.resize width height).2 =
      (if width = 0 ∨ height = 0 then []
        else [GpuOp.configureSurface width height]) := by
  by_cases hw : width = 0 <;> by_cases hh : height = 0 <;>
    simp [RenderContext.resize, hw, hh]

/-- C9: `render` never reaches the fatal unregistered-lookup branch: the
registry lookup in the render pass always succeeds because the mesh is
registered at the top of `render`, so `render` never panics (never `none`). -/
theorem render_never_panics (ctx : RenderContext) (camera : Camera)
    (mesh : Mesh) (acquireOk : Bool) :
    (ctx.render camera mesh acquireOk).isSome = true := by
  unfold RenderContext.render
  obtain ⟨bs, hbs⟩ := Option.isSome_iff_exists.mp
    (lookupKey_isSome_of_containsKey _ _ (ensureRegistered_contains ctx mesh))
  by_cases hw : ((ctx.ensureRegistered mesh).1.surfaceWidth == 0
      || (ctx.ensureRegistered mesh).1.surfaceHeight == 0)
  · simp [hw]
  · by_cases ha : acquireOk
    · simp [hw, ha, hbs]
    · simp [hw, ha]

/-- C7 counterexample: a mesh whose index 5 is out of range for its empty
vertex list is nevertheless accepted and registered — the code checks no
index-bounds invariant at construction or registration. -/
theorem register_accepts_out_of_range_index :
    containsKey (ctxFresh.register_mesh badMesh).1.bufferSets badMesh.id
        = true ∧
    ¬ (∀ i ∈ badMesh.indices, i < badMesh.vertices.length) := by
  decide

/-- C7 amended: neither `Mesh::new` nor `register_mesh` checks that every
index is below the vertex count; registration unconditionally accepts any
mesh, inserting it into the registry and uploading its two buffers. -/
theorem register_mesh_checks_no_invariant (ctx : RenderContext) (mesh : Mesh) :
    containsKey (ctx.register_mesh mesh).1.bufferSets mesh.id = true ∧
    (containsKey ctx.bufferSets mesh.id = false →
      (ctx.register_mesh mesh).2 =
        [GpuOp.createBufferInit ctx.nextBufferId,
          GpuOp.createBufferInit (ctx.nextBufferId + 1)]) := by
  refine ⟨register_mesh_contains ctx mesh, fun h => ?_⟩
  unfold RenderContext.register_mesh
  simp [h, Mesh.buffer_set]

/-- Witness for C7's amended statement at the out-of-range mesh. -/
theorem register_mesh_checks_no_invariant_witness :
    containsKey (ctxFresh.register_mesh badMesh).1.bufferSets badMesh.id
        = true ∧
    (ctxFresh.register_mesh badMesh).2 =
      [GpuOp.createBufferInit 0, GpuOp.createBufferInit 1] :=
  ⟨(register_mesh_checks_no_invariant ctxFresh badMesh).1,
    (register_mesh_checks_no_invariant ctxFresh badMesh).2 (by decide)⟩

/-- C2: after any sequence of `resize` calls, any view-projection request a
subsequent `render` makes uses an aspect ratio equal to the stored surface
width divided by the stored surface height, exactly. -/
theorem render_aspect_ratio_exact (ctx : RenderContext)
    (sizes : List (Nat × Nat)) (camera : Camera) (mesh : Mesh)
    (acquireOk : Bool) (p : RenderContext × List GpuOp) (a : ℚ)
    (hp : (applyResizes ctx sizes).render camera mesh acquireOk = some p)
    (ha : GpuOp.writeUniform a ∈ p.2) :
    a = ((applyResizes ctx sizes).surfaceWidth : ℚ) /
        ((applyResizes ctx sizes).surfaceHeight : ℚ) :=
  render_writeUniform_aspect _ camera mesh acquireOk p a hp ha

/-- Witness for C2: `resize(800, 600)` then `render` requests the matrix with
aspect ratio 800/600. -/
theorem render_aspect_ratio_exact_witness :
    (800 : ℚ) / 600 =
      ((applyResizes ctxW [(800, 600)]).surfaceWidth : ℚ) /
        ((applyResizes ctxW [(800, 600)]).surfaceHeight : ℚ) :=
  render_aspect_ratio_exact ctxW [(800, 600)] camEx meshEx true
    (((applyResizes ctxW [(800, 600)]).render camEx meshEx true).getD
      (ctxFresh, []))
    ((800 : ℚ) / 600) rfl
    (by simp [applyResizes, RenderContext.resize, RenderContext.render,
      RenderContext.ensureRegistered, RenderContext.register_mesh, containsKey,
      insertKey, lookupKey, Mesh.buffer_set, ctxW, meshEx])

/-- C3: when surface-image acquisition fails, `render` logs the failure and
returns (`some`, i.e. no panic) without submitting or presenting. -/
theorem render_acquire_failure_skips (ctx : RenderContext) (camera : Camera)
    (mesh : Mesh) (hw : ctx.surfaceWidth ≠ 0) (hh : ctx.surfaceHeight ≠ 0) :
    ∃ ctx' tr, ctx.render camera mesh false = some (ctx', tr) ∧
      GpuOp.logAcquireFailure ∈ tr ∧
      GpuOp.submit ∉ tr ∧ GpuOp.present ∉ tr := by
  have hops := ensureRegistered_ops ctx mesh
  have hd := ensureRegistered_dims ctx mesh
  have hcond : ((ctx.ensureRegistered mesh).1.surfaceWidth == 0
      || (ctx.ensureRegistered mesh).1.surfaceHeight == 0) = false := by
    simp [hd.1, hd.2, hw, hh]
  refine ⟨(ctx.ensureRegistered mesh).1,
    (ctx.ensureRegistered mesh).2 ++
      [GpuOp.acquireFrame false, GpuOp.logAcquireFailure], ?_, ?_, ?_, ?_⟩
  · simp [RenderContext.render, hcond]
  · simp
  · intro hmem
    rcases List.mem_append.mp hmem with h1 | h2
    · obtain ⟨n, hn⟩ := hops _ h1
      simp at hn
    · simp at h2
  · intro hmem
    rcases List.mem_append.mp hmem with h1 | h2
    · obtain ⟨n, hn⟩ := hops _ h1
      simp at hn
    · simp at h2

/-- Witness for C3 on a fresh 640×480 context. -/
theorem render_acquire_failure_skips_witness :
    ∃ ctx' tr, ctxFresh.render camEx meshEx false = some (ctx', tr) ∧
      GpuOp.logAcquireFailure ∈ tr ∧
      GpuOp.submit ∉ tr ∧ GpuOp.present ∉ tr :=
  render_acquire_failure_skips ctxFresh camEx meshEx (by decide) (by decide)

/-- C4: when either stored surface dimension is 0, `render` skips the frame
entirely: its trace contains no surface-image acquire attempt, no submit and
no present. -/
theorem render_zero_dims_skips (ctx : RenderContext) (camera : Camera)
    (mesh : Mesh) (acquireOk : Bool)
    (h : ctx.surfaceWidth = 0 ∨ ctx.surfaceHeight = 0) :
    ∃ ctx' tr, ctx.render camera mesh acquireOk = some (ctx', tr) ∧
      (∀ b, GpuOp.acquireFrame b ∉ tr) ∧
      GpuOp.submit ∉ tr ∧ GpuOp.present ∉ tr := by
  have hops := ensureRegistered_ops ctx mesh
  have hd := ensureRegistered_dims ctx mesh
  have hcond : ((ctx.ensureRegistered mesh).1.surfaceWidth == 0
      || (ctx.ensureRegistered mesh).1.surfaceHeight == 0) = true := by
    rcases h with h | h <;> simp [hd.1, hd.2, h]
  refine ⟨(ctx.ensureRegistered mesh).1, (ctx.ensureRegistered mesh).2,
    ?_, ?_, ?_, ?_⟩
  · simp [RenderContext.render, hcond]
  · intro b hmem
    obtain ⟨n, hn⟩ := hops _ hmem
    simp at hn
  · intro hmem
    obtain ⟨n, hn⟩ := hops _ hmem
    simp at hn
  · intro hmem
    obtain ⟨n, hn⟩ := hops _ hmem
    simp at hn

/-- Witness for C4 on a context resized to width 0. -/
theorem render_zero_dims_skips_witness :
    ∃ ctx' tr,
      (RenderContext.mk 0 480 [] 0).render camEx meshEx true = some (ctx', tr) ∧
      (∀ b, GpuOp.acquireFrame b ∉ tr) ∧
      GpuOp.submit ∉ tr ∧ GpuOp.present ∉ tr :=
  render_zero_dims_skips ⟨0, 480, [], 0⟩ camEx meshEx true (Or.inl rfl)

/-- C10: after any `render` call that returns (including frames skipped for
zero dimensions or failed acquisition), the mesh's identity is a key of the
registry: registration happens before the skip checks. -/
theorem render_registers_mesh (ctx : RenderContext) (camera : Camera)
    (mesh : Mesh) (acquireOk : Bool) (ctx' : RenderContext) (tr : List GpuOp)
    (hp : ctx.render camera mesh acquireOk = some (ctx', tr)) :
    containsKey ctx'.bufferSets mesh.id = true := by
  have hc := ensureRegistered_contains ctx mesh
  by_cases hw : ((ctx.ensureRegistered mesh).1.surfaceWidth == 0
      || (ctx.ensureRegistered mesh).1.surfaceHeight == 0)
  · simp [RenderContext.render, hw] at hp
    rw [hp] at hc
    exact hc
  · by_cases hacq : acquireOk
    · obtain ⟨bs, hbs⟩ := Option.isSome_iff_exists.mp
        (lookupKey_isSome_of_containsKey _ _ hc)
      simp [RenderContext.render, hw, hacq, hbs] at hp
      rw [← hp.1]
      exact hc
    · simp [RenderContext.render, hw, hacq] at hp
      rw [← hp.1]
      exact hc

/-- Witness for C10 on a zero-dimension context with failing acquisition: the
frame is skipped, the mesh is registered nevertheless. -/
theorem render_registers_mesh_witness :
    containsKey renderZeroResult.1.bufferSets meshEx.id = true :=
  render_registers_mesh ctxZero camEx meshEx false renderZeroResult.1
    renderZeroResult.2 rfl

/-- C6 counterexample: after registering two triangles of 3 indices each
(identities 1 and 2), one `render` call issues exactly one indexed draw — of
index count 3, instance count 1, for the single mesh `render` accepts — not
the two draws the claim expects. -/
theorem two_meshes_single_render_one_draw :
    drawCalls renderTwoResult.2 = [GpuOp.drawIndexed 3 1] ∧
    (drawCalls renderTwoResult.2).length = 1 ∧
    (drawCalls renderTwoResult.2).length ≠ 2 :=
  ⟨rfl, rfl, by decide⟩

/-- C6 amended: `render` accepts a single geometry per call; every
non-skipped call issues exactly one indexed draw, covering exactly the
supplied geometry's index count with instance count 1 (drawing two geometries
takes two `render` calls). -/
theorem render_one_draw_per_call (ctx : RenderContext) (camera : Camera)
    (mesh : Mesh) (ctx' : RenderContext) (tr : List GpuOp)
    (hw : ctx.surfaceWidth ≠ 0) (hh : ctx.surfaceHeight ≠ 0)
    (hp : ctx.render camera mesh true = some (ctx', tr)) :
    drawCalls tr = [GpuOp.drawIndexed mesh.index_count 1] := by
  have hops := ensureRegistered_ops ctx mesh
  have hd := ensureRegistered_dims ctx mesh
  have hcond : ((ctx.ensureRegistered mesh).1.surfaceWidth == 0
      || (ctx.ensureRegistered mesh).1.surfaceHeight == 0) = false := by
    simp [hd.1, hd.2, hw, hh]
  obtain ⟨bs, hbs⟩ := Option.isSome_iff_exists.mp
    (lookupKey_isSome_of_containsKey _ _ (ensureRegistered_contains ctx mesh))
  simp [RenderContext.render, hcond, hbs] at hp
  rw [← hp.2]
  unfold drawCalls
  rw [List.filter_append, filter_isDrawOp_eq_nil _ hops]
  simp [isDrawOp]

/-- Witness for C6's amended statement: a full frame on a fresh context draws
the 3-index mesh once with instance count 1. -/
theorem render_one_draw_per_call_witness :
    drawCalls renderOkResult.2 = [GpuOp.drawIndexed 3 1] :=
  render_one_draw_per_call ctxFresh camEx meshEx renderOkResult.1
    renderOkResult.2 (by decide) (by decide) rfl

/-- C8: in every frame, either nothing is submitted and nothing is presented
(the frame was skipped), or the trace ends with the command-buffer submission
immediately followed by presentation — presentation never precedes
submission. -/
theorem submit_precedes_present (ctx : RenderContext) (camera : Camera)
    (mesh : Mesh) (acquireOk : Bool) (ctx' : RenderContext) (tr : List GpuOp)
    (hp : ctx.render camera mesh acquireOk = some (ctx', tr)) :
    (GpuOp.submit ∉ tr ∧ GpuOp.present ∉ tr) ∨
      ∃ pre, tr = pre ++ [GpuOp.submit, GpuOp.present] := by
  have hops := ensureRegistered_ops ctx mesh
  by_cases hw : ((ctx.ensureRegistered mesh).1.surfaceWidth == 0
      || (ctx.ensureRegistered mesh).1.surfaceHeight == 0)
  · left
    simp [RenderContext.render, hw] at hp
    have htr : tr = (ctx.ensureRegistered mesh).2 := by rw [hp]
    rw [htr]
    constructor <;> intro hmem <;> obtain ⟨n, hn⟩ := hops _ hmem <;> simp at hn
  · by_cases hacq : acquireOk
    · right
      obtain ⟨bs, hbs⟩ := Option.isSome_iff_exists.mp
        (lookupKey_isSome_of_containsKey _ _ (ensureRegistered_contains ctx mesh))
      simp [RenderContext.render, hw, hacq, hbs] at hp
      refine ⟨(ctx.ensureRegistered mesh).2 ++
        [GpuOp.acquireFrame true, GpuOp.createView, GpuOp.createCommandEncoder,
          GpuOp.writeUniform (((ctx.ensureRegistered mesh).1.surfaceWidth : ℚ) /
            ((ctx.ensureRegistered mesh).1.surfaceHeight : ℚ)),
          GpuOp.beginRenderPass, GpuOp.setPipeline,
          GpuOp.setVertexBuffer bs.vertexBuffer,
          GpuOp.setIndexBuffer bs.indexBuffer, GpuOp.setBindGroup,
          GpuOp.drawIndexed mesh.index_count 1], ?_⟩
      rw [← hp.2]
      simp
    · left
      simp [RenderContext.render, hw, hacq] at hp
      rw [← hp.2]
      constructor <;> intro hmem <;> rcases List.mem_append.mp hmem with h1 | h2
      · obtain ⟨n, hn⟩ := hops _ h1
        simp at hn
      · simp at h2
      · obtain ⟨n, hn⟩ := hops _ h1
        simp at hn
      · simp at h2

/-- Witness for C8 on a full successful frame. -/
theorem submit_precedes_present_witness :
    (GpuOp.submit ∉ renderOkResult.2 ∧ GpuOp.present ∉ renderOkResult.2) ∨
      ∃ pre, renderOkResult.2 = pre ++ [GpuOp.submit, GpuOp.present] :=
  submit_precedes_present ctxFresh camEx meshEx true renderOkResult.1
    renderOkResult.2 rfl

end Renderer
